import Mathlib

/-!
Verification of the FAQ extraction / validation / schema-generation pipeline.

Sources embedded here:
* parseFAQFromContent, cleanText, stripMarkdownLinks, validateFAQData
  from the FAQ test-script implementation in astro.config.mjs
  (functions parseFAQFromContent .. validateFAQData).
* generateFAQSchema, generateFAQSchemaItems from src/core/seo/generateFAQSchema.ts.

The extractor is driven by JavaScript regular expressions, so this file
contains a small backtracking matcher restricted to the constructs those
regexes use (single-character atoms under repetition, ordered alternation,
lazy and greedy quantifiers, one-level lookahead, the dollar anchor with and
without the m flag, the i and s flags).  Matching is leftmost-first with
ordered backtracking, which is the ECMAScript semantics for these patterns.

JavaScript values are embedded as the inductive JSVal; property access on
null and undefined (a TypeError in JavaScript) is modelled by Except.error
where the source can actually reach it, and is documented where it cannot.
-/

namespace FAQ

/-! ### JavaScript character classes -/

/-- Line terminators of ECMAScript (what the dollar anchor with the m flag
stops before, and what the dot without the s flag refuses). -/
def lineTerm (c : Char) : Bool :=
  c == '\n' || c == '\r' || c == '\u2028' || c == '\u2029'

/-- ECMAScript whitespace, the set matched by backslash-s and removed by
String.prototype.trim. -/
def jsWs (c : Char) : Bool :=
  c == ' ' || c == '\t' || c == '\n' || c == '\u000b' || c == '\u000c' ||
  c == '\r' || c == '\u00a0' || c == '\u1680' ||
  ('\u2000' ≤ c && c ≤ '\u200a') || c == '\u2028' || c == '\u2029' ||
  c == '\u202f' || c == '\u205f' || c == '\u3000' || c == '\ufeff'

/-- The character classes occurring in the regexes of the source. -/
inductive CClass where
  | dotNoNL   -- the dot without the s flag
  | dotAll    -- the dot under the s flag
  | ws        -- backslash-s
  | digit     -- backslash-d
  | notAi     -- [^A] under the i flag (excludes both cases)
  | notRBr    -- [^\x5d] : anything but a closing bracket
  | notRPar   -- [^)]
deriving Repr

def CClass.test : CClass → Char → Bool
  | .dotNoNL, c => !lineTerm c
  | .dotAll, _ => true
  | .ws, c => jsWs c
  | .digit, c => '0' ≤ c && c ≤ '9'
  | .notAi, c => !(c == 'A' || c == 'a')
  | .notRBr, c => c != ']'
  | .notRPar, c => c != ')'

/-- A single-character matcher: a class, an exact literal, or a literal
made case-insensitive by the i flag. -/
inductive Atom where
  | cl (c : CClass)
  | exact (c : Char)
  | anycase (c : Char)
deriving Repr

def Atom.test : Atom → Char → Bool
  | .cl cc, c => cc.test c
  | .exact d, c => c == d
  | .anycase d, c => c.toLower == d.toLower

/-- Regular expressions, restricted to the shapes used by the source:
all repetition is over single-character atoms. -/
inductive RE where
  | eps
  | one (a : Atom)
  | seq (r1 r2 : RE)
  | alt (r1 r2 : RE)
  | rep (a : Atom) (mn : Nat) (mx : Option Nat) (lazy : Bool)
  | group (i : Nat) (r : RE)
  | look (r : RE)              -- (?= ... )
  | lineEnd (m : Bool)         -- the dollar anchor, with or without the m flag
deriving Repr

/-- A case-sensitive literal string. -/
def rstr (s : String) : RE :=
  s.data.foldr (fun c r => .seq (.one (.exact c)) r) .eps

/-- A case-insensitive literal string (the i flag). -/
def rstrCI (s : String) : RE :=
  s.data.foldr (fun c r => .seq (.one (.anycase c)) r) .eps

/-! ### The backtracking matcher -/

/-- Recorded captures: group index, start, end.  Later records are
prepended, lookup takes the first hit. -/
abbrev Caps := List (Nat × Nat × Nat)

abbrev MRes := Nat × Caps

def capLookup : Caps → Nat → Option (Nat × Nat)
  | [], _ => none
  | (j, s, e) :: rest, i => if j == i then some (s, e) else capLookup rest i

/-- Repetition of a single atom with ordered backtracking.  Greedy tries the
longer continuation first, lazy tries the shorter one first; the budget b is
an upper bound on the number of iterations (each consumes one character). -/
def repRun (inp : List Char) (a : Atom) (lz : Bool) :
    Nat → Nat → Option Nat → Nat → Caps → (Nat → Caps → Option MRes) → Option MRes
  | 0, _, _, _, _, _ => none
  | b + 1, mn, mx, pos, caps, k =>
    let step : Unit → Option MRes := fun _ =>
      if mx == some 0 then none
      else
        match inp.get? pos with
        | some c =>
          if a.test c then
            repRun inp a lz b (mn - 1) (mx.map (· - 1)) (pos + 1) caps k
          else none
        | none => none
    if mn == 0 then
      if lz then
        match k pos caps with
        | some r => some r
        | none => step ()
      else
        match step () with
        | some r => some r
        | none => k pos caps
    else step ()

/-- The matcher in continuation-passing style; ordered choice gives the
leftmost-first, greedy/lazy ECMAScript behaviour. -/
def mrun (inp : List Char) : RE → Nat → Caps → (Nat → Caps → Option MRes) → Option MRes
  | .eps, pos, caps, k => k pos caps
  | .one a, pos, caps, k =>
    match inp.get? pos with
    | some c => if a.test c then k (pos + 1) caps else none
    | none => none
  | .seq r1 r2, pos, caps, k =>
    mrun inp r1 pos caps (fun p c => mrun inp r2 p c k)
  | .alt r1 r2, pos, caps, k =>
    match mrun inp r1 pos caps k with
    | some r => some r
    | none => mrun inp r2 pos caps k
  | .rep a mn mx lz, pos, caps, k => repRun inp a lz (inp.length + 1) mn mx pos caps k
  | .group i r, pos, caps, k =>
    mrun inp r pos caps (fun p c => k p ((i, pos, p) :: c))
  | .look r, pos, caps, k =>
    match mrun inp r pos caps (fun p c => some (p, c)) with
    | some (_, c2) => k pos c2
    | none => none
  | .lineEnd m, pos, caps, k =>
    if pos == inp.length then k pos caps
    else if m then
      match inp.get? pos with
      | some c => if lineTerm c then k pos caps else none
      | none => none
    else none

/-- Search for the first match at or after start (regexp.exec semantics):
try each start position left to right. -/
def researchFrom (inp : List Char) (re : RE) : Nat → Nat → Option (Nat × Nat × Caps)
  | 0, _ => none
  | b + 1, start =>
    if start > inp.length then none
    else
      match mrun inp re start [] (fun p c => some (p, c)) with
      | some (e, caps) => some (start, e, caps)
      | none => researchFrom inp re b (start + 1)

def research (inp : List Char) (re : RE) (start : Nat) : Option (Nat × Nat × Caps) :=
  researchFrom inp re (inp.length + 1 - start) start

/-- All matches of a global regex (String.prototype.matchAll), resuming after
each match and skipping one position on an empty match. -/
def matchAllFrom (inp : List Char) (re : RE) : Nat → Nat → List (Nat × Nat × Caps)
  | 0, _ => []
  | b + 1, start =>
    match research inp re start with
    | none => []
    | some (s, e, caps) =>
      (s, e, caps) :: matchAllFrom inp re b (if e == s then e + 1 else e)

def matchAllRE (inp : List Char) (re : RE) : List (Nat × Nat × Caps) :=
  matchAllFrom inp re (inp.length + 1) 0

def sliceL (inp : List Char) (a b : Nat) : List Char := (inp.drop a).take (b - a)

/-- String.prototype.replace with a regex: first match only, or all matches
under the g flag; repl builds the replacement from the captures. -/
def replaceFrom (inp : List Char) (re : RE) (repl : Caps → List Char) (global : Bool) :
    Nat → Nat → List Char
  | 0, pos => inp.drop pos
  | b + 1, pos =>
    match research inp re pos with
    | none => inp.drop pos
    | some (s, e, caps) =>
      sliceL inp pos s ++ repl caps ++
        (if !global then inp.drop e
         else if s < e then replaceFrom inp re repl global b e
         else sliceL inp e (e + 1) ++ replaceFrom inp re repl global b (e + 1))

def replaceRE (inp : List Char) (re : RE) (repl : Caps → List Char) (global : Bool) :
    List Char :=
  replaceFrom inp re repl global (inp.length + 1) 0

/-- The text of a capture group (the dollar-one replacement); a group that
did not participate contributes the empty string. -/
def capText (inp : List Char) (caps : Caps) (i : Nat) : List Char :=
  match capLookup caps i with
  | some (s, e) => sliceL inp s e
  | none => []

def isPrefixL : List Char → List Char → Bool
  | [], _ => true
  | _ :: _, [] => false
  | c :: cs, d :: ds => c == d && isPrefixL cs ds

/-- String.prototype.indexOf for a literal substring. -/
def indexOfFrom (inp sub : List Char) : Nat → Nat → Option Nat
  | 0, _ => none
  | b + 1, pos =>
    if isPrefixL sub (inp.drop pos) then some pos
    else if pos ≥ inp.length then none
    else indexOfFrom inp sub b (pos + 1)

def indexOfL (inp sub : List Char) : Option Nat := indexOfFrom inp sub (inp.length + 1) 0

/-! ### The regexes of the source, transliterated

faqSectionRegex, qaRegex and the replacement regexes of cleanText,
stripMarkdownLinks and the title derivation, from parseFAQFromContent and its
helpers in astro.config.mjs. -/

/-- The heading search of parseFAQFromContent, with the g, i and m flags:
one to six hash marks, optional whitespace, any non-newline text containing
FAQ or Frequently Asked Questions, to the end of the line. -/
def faqSectionRegex : RE :=
  .seq (.rep (.exact '#') 1 (some 6) false)
  (.seq (.rep (.cl .ws) 0 none false)
  (.seq (.rep (.cl .dotNoNL) 0 none false)
  (.seq (.alt (rstrCI "FAQ") (rstrCI "Frequently Asked Questions"))
  (.seq (.rep (.cl .dotNoNL) 0 none false)
        (.lineEnd true)))))

/-- The question/answer pattern of parseFAQFromContent, with the g, i and s
flags: three hash marks, optional whitespace, Q with optional digits and an
optional colon, the lazily matched question (group 1), one or more newlines,
A with optional digits and an optional colon, the lazily matched answer
(group 2), stopped by a lookahead for a newline-hashes boundary, a blank line
followed by a character other than A, or the end of input. -/
def qaRegex : RE :=
  .seq (rstr "###")
  (.seq (.rep (.cl .ws) 0 none false)
  (.seq (.one (.anycase 'Q'))
  (.seq (.rep (.cl .digit) 0 none false)
  (.seq (.rep (.exact ':') 0 (some 1) false)
  (.seq (.rep (.cl .ws) 0 none false)
  (.seq (.group 1 (.rep (.cl .dotAll) 1 none true))
  (.seq (.rep (.exact '\n') 1 none false)
  (.seq (.one (.anycase 'A'))
  (.seq (.rep (.cl .digit) 0 none false)
  (.seq (.rep (.exact ':') 0 (some 1) false)
  (.seq (.rep (.cl .ws) 0 none false)
  (.seq (.group 2 (.rep (.cl .dotAll) 1 none true))
        (.look (.alt (.alt (rstr "\n###")
                           (.seq (rstr "\n\n") (.one (.cl .notAi))))
                     (.lineEnd false)))))))))))))))

/-- The first replacement of the title derivation: one to six hash marks and
trailing whitespace, replaced once (no g flag). -/
def hashWsRegex : RE :=
  .seq (.rep (.exact '#') 1 (some 6) false) (.rep (.cl .ws) 0 none false)

/-- The second replacement of the title derivation: the literal
parenthesised FAQ, case-insensitive, all occurrences. -/
def parenFAQRegex : RE :=
  .seq (.one (.exact '(')) (.seq (rstrCI "FAQ") (.one (.exact ')')))

/-- cleanText first replacement: one or more newlines. -/
def nlPlusRegex : RE := .rep (.exact '\n') 1 none false

/-- cleanText second replacement: one or more whitespace characters. -/
def wsPlusRegex : RE := .rep (.cl .ws) 1 none false

/-- stripMarkdownLinks pattern: bracketed text (group 1) followed by a
parenthesised url, both non-empty. -/
def linkRegex : RE :=
  .seq (.one (.exact '['))
  (.seq (.group 1 (.rep (.cl .notRBr) 1 none false))
  (.seq (.one (.exact ']'))
  (.seq (.one (.exact '('))
  (.seq (.rep (.cl .notRPar) 1 none false)
        (.one (.exact ')'))))))

/-! ### The extractor and its helpers -/

/-- String.prototype.trim over the ECMAScript whitespace set. -/
def trimL (l : List Char) : List Char :=
  ((l.dropWhile jsWs).reverse.dropWhile jsWs).reverse

def jsTrim (s : String) : String := ⟨trimL s.data⟩

/-- cleanText of astro.config.mjs: collapse newline runs to a space, collapse
whitespace runs to a space, trim. -/
def cleanText (s : String) : String :=
  ⟨trimL (replaceRE (replaceRE s.data nlPlusRegex (fun _ => [' ']) true)
            wsPlusRegex (fun _ => [' ']) true)⟩

/-- stripMarkdownLinks of astro.config.mjs: every bracketed-text
parenthesised-url pair is replaced by the bracketed text. -/
def stripMarkdownLinks (s : String) : String :=
  ⟨replaceRE s.data linkRegex (fun caps => capText s.data caps 1) true⟩

structure FAQItem where
  question : String
  answer : String
deriving Repr, DecidableEq

structure FAQData where
  title : String
  items : List FAQItem
deriving Repr, DecidableEq

/-! ### JavaScript values -/

/-- The JavaScript values the pipeline can be handed (functions, symbols and
non-integral numbers are never distinguished by this code, so numbers are
carried as integers; a cyclic object graph is not constructible in an
inductive type, which is harmless here because every field access below is
one level deep and non-recursive). -/
inductive JSVal where
  | vNull
  | vUndefined
  | vBool (b : Bool)
  | vNum (n : Int)
  | vStr (s : String)
  | vArr (elems : List JSVal)
  | vObj (fields : List (String × JSVal))
deriving Repr

/-- JavaScript truthiness. -/
def truthy : JSVal → Bool
  | .vNull => false
  | .vUndefined => false
  | .vBool b => b
  | .vNum n => n != 0
  | .vStr s => s != ""
  | .vArr _ => true
  | .vObj _ => true

/-- The typeof operator (null and arrays answer object). -/
def jsTypeof : JSVal → String
  | .vNull => "object"
  | .vUndefined => "undefined"
  | .vBool _ => "boolean"
  | .vNum _ => "number"
  | .vStr _ => "string"
  | .vArr _ => "object"
  | .vObj _ => "object"

def isNullish : JSVal → Bool
  | .vNull => true
  | .vUndefined => true
  | _ => false

/-- First-match field lookup in an object literal; a missing field reads as
undefined. -/
def objGet : List (String × JSVal) → String → JSVal
  | [], _ => .vUndefined
  | (k, v) :: rest, key => if k = key then v else objGet rest key

/-- Property access.  On null and undefined a JavaScript property access
throws a TypeError; every access below is guarded by a truthiness or
isNullish test first (or modelled by Except.error where the source can reach
it, see everyValid), so the vUndefined returned here for those two cases is
never relied upon. -/
def propT : JSVal → String → JSVal
  | .vObj fs, key => objGet fs key
  | .vArr l, key => if key = "length" then .vNum l.length else .vUndefined
  | .vStr s, key => if key = "length" then .vNum s.length else .vUndefined
  | _, _ => .vUndefined

/-- The extractor parseFAQFromContent of astro.config.mjs.  null is the
JavaScript null return; the content.match call with the g flag returns the
list of matched substrings, of which the source reads only element 0, so the
first regex match is taken; content.indexOf locates that substring and the
rest of the document from there is scanned with qaRegex. -/
def parseFAQFromContent (content : JSVal) : Option FAQData :=
  match content with
  | .vStr s =>
    if s == "" then none        -- !content : the empty string is falsy
    else
      let inp := s.data
      match research inp faqSectionRegex 0 with
      | none => none
      | some (ms, me, _) =>
        let matched := sliceL inp ms me
        let faqTitle :=
          trimL (replaceRE (replaceRE matched hashWsRegex (fun _ => []) false)
                   parenFAQRegex (fun _ => []) true)
        let faqContent :=
          match indexOfL inp matched with
          | some i => inp.drop i
          | none => inp         -- substring of a negative index clamps to 0
        let qaMatches := matchAllRE faqContent qaRegex
        if qaMatches.isEmpty then none
        else some {
          title := ⟨faqTitle⟩
          items := qaMatches.map (fun m =>
            { question := cleanText ⟨capText faqContent m.2.2 1⟩
              answer := stripMarkdownLinks (cleanText ⟨capText faqContent m.2.2 2⟩) }) }
  | _ => none                   -- typeof content is not string

/-! ### The validator -/

/-- The body of the every callback of validateFAQData, for a non-nullish
item: item.question and item.answer truthy, both of type string, both
non-empty after trimming.  The trim call is only reached after the typeof
checks, so the catch-all false branch of strNonBlank is never the deciding
one. -/
def strNonBlank : JSVal → Bool
  | .vStr s => decide (0 < (jsTrim s).length)
  | _ => false

def validQA (item : JSVal) : Bool :=
  truthy (propT item "question") && truthy (propT item "answer") &&
  (jsTypeof (propT item "question") == "string") &&
  (jsTypeof (propT item "answer") == "string") &&
  strNonBlank (propT item "question") && strNonBlank (propT item "answer")

/-- Array.prototype.every over the validateFAQData callback.  The callback
begins with the access item.question, which throws a TypeError when the
element is null or undefined: that is the Except.error case.  every stops at
the first falsy callback result. -/
def everyValid : List JSVal → Except Unit Bool
  | [] => .ok true
  | item :: rest =>
    if isNullish item then .error ()
    else if validQA item then everyValid rest
    else .ok false

/-- validateFAQData of astro.config.mjs.  The guard rejects a falsy input,
a falsy items property and a non-array items property with false; a
JavaScript array is always truthy, so the three negated guard conditions
collapse to: the input is truthy and its items property is an array.  Note
the guard does not test items.length, so an empty array reaches every,
which is vacuously true. -/
def validateFAQData (faqData : JSVal) : Except Unit Bool :=
  if ¬ truthy faqData then .ok false
  else
    match propT faqData "items" with
    | .vArr items => everyValid items
    | _ => .ok false

/-! ### The schema generator of src/core/seo/generateFAQSchema.ts -/

mutual

/-- The String() coercion.  Arrays stringify by joining their elements with
commas, null and undefined elements contributing empty strings; plain
objects stringify to the bracketed object tag. -/
def jsToString : JSVal → String
  | .vNull => "null"
  | .vUndefined => "undefined"
  | .vBool true => "true"
  | .vBool false => "false"
  | .vNum n => toString n
  | .vStr s => s
  | .vObj _ => "[object Object]"
  | .vArr l => String.intercalate "," (jsArrElems l)

/-- Array.prototype.toString: elementwise String() with null and undefined
going to the empty string. -/
def jsArrElems : List JSVal → List String
  | [] => []
  | .vNull :: rest => "" :: jsArrElems rest
  | .vUndefined :: rest => "" :: jsArrElems rest
  | x :: rest => jsToString x :: jsArrElems rest

end

/-- The acceptedAnswer node: its literal type tag field and text. -/
structure AnswerSchema where
  answerType : String          -- the literal field named with an at-sign: type
  text : String
deriving Repr, DecidableEq

/-- One Schema.org Question node (FAQSchemaItem of the source). -/
structure FAQSchemaItem where
  itemType : String            -- the literal type tag, always Question
  name : String
  acceptedAnswer : AnswerSchema
deriving Repr, DecidableEq

/-- The FAQPage wrapper (FAQPageSchema of the source). -/
structure FAQPageSchema where
  context : String             -- the literal context field
  pageType : String            -- the literal type tag, always FAQPage
  mainEntity : List FAQSchemaItem
deriving Repr, DecidableEq

/-- The filter callback of generateFAQSchema and generateFAQSchemaItems:
item truthy, of typeof object, with truthy question and answer.  The two
property reads are only reached after the truthiness test on item, so they
cannot throw. -/
def keepItem (item : JSVal) : Bool :=
  truthy item && (jsTypeof item == "object") &&
  truthy (propT item "question") && truthy (propT item "answer")

/-- The map callback shared by both generators. -/
def toSchemaItem (item : JSVal) : FAQSchemaItem :=
  { itemType := "Question"
    name := jsToString (propT item "question")
    acceptedAnswer := { answerType := "Answer", text := jsToString (propT item "answer") } }

/-- Strict equality of a property value with the number literal 0 (the
guard items.length === 0). -/
def strictEq0 : JSVal → Bool
  | .vNum n => n == 0
  | _ => false

/-- generateFAQSchema of src/core/seo/generateFAQSchema.ts.  The guard
returns null on a falsy input, a falsy items property, or items.length
strictly equal to 0.  The body is wrapped in try/catch returning null: when
items is not an array its filter method is undefined and the call throws,
which is the catch-all none branch; the filter and map callbacks themselves
cannot throw. -/
def generateFAQSchema (faqData : JSVal) : Option FAQPageSchema :=
  if ¬ truthy faqData then none
  else if ¬ truthy (propT faqData "items") then none
  else if strictEq0 (propT (propT faqData "items") "length") then none
  else
    match propT faqData "items" with
    | .vArr items =>
      let mainEntity := (items.filter keepItem).map toSchemaItem
      if mainEntity.length = 0 then none
      else some { context := "https://schema.org", pageType := "FAQPage", mainEntity := mainEntity }
    | _ => none                 -- items.filter is not a function: caught, null

/-- generateFAQSchemaItems of src/core/seo/generateFAQSchema.ts: identical
guard, filter and map; returns the bare list when non-empty, else null. -/
def generateFAQSchemaItems (faqData : JSVal) : Option (List FAQSchemaItem) :=
  if ¬ truthy faqData then none
  else if ¬ truthy (propT faqData "items") then none
  else if strictEq0 (propT (propT faqData "items") "length") then none
  else
    match propT faqData "items" with
    | .vArr itemsArr =>
      let items := (itemsArr.filter keepItem).map toSchemaItem
      if 0 < items.length then some items else none
    | _ => none                 -- itemsArr.filter is not a function: caught, null

/-- Inputs on which the scheme generator is specified to return null: falsy
input, or an items property that is missing, not an array, or whose
truthiness filter keeps nothing (this covers the empty array). -/
def schemaNullInput (v : JSVal) : Bool :=
  !truthy v ||
    (match propT v "items" with
     | .vArr l => (l.filter keepItem).isEmpty
     | _ => true)

/-- Whether the items property, if it is an array, is free of null and
undefined elements (the elements whose property access throws). -/
def itemsAllNonNullish (v : JSVal) : Bool :=
  match propT v "items" with
  | .vArr l => l.all (fun x => !isNullish x)
  | _ => true

/-! ### Helper lemmas -/

theorem jsTypeof_eq_string : ∀ {v : JSVal}, jsTypeof v = "string" → ∃ s, v = .vStr s := by
  intro v h
  cases v with
  | vStr s => exact ⟨s, rfl⟩
  | vNull => exact absurd h (by decide)
  | vUndefined => exact absurd h (by decide)
  | vBool b => simp only [jsTypeof] at h; exact absurd h (by decide)
  | vNum n => simp only [jsTypeof] at h; exact absurd h (by decide)
  | vArr l => simp only [jsTypeof] at h; exact absurd h (by decide)
  | vObj gs => simp only [jsTypeof] at h; exact absurd h (by decide)

theorem propT_vStr_question (s : String) : propT (.vStr s) "question" = .vUndefined := by
  rw [propT]
  exact if_neg (by decide)

theorem propT_vArr_question (l : List JSVal) : propT (.vArr l) "question" = .vUndefined := by
  rw [propT]
  exact if_neg (by decide)

theorem propT_vArr_length (l : List JSVal) : propT (.vArr l) "length" = .vNum l.length := by
  rw [propT]
  exact if_pos rfl

theorem truthy_question_vObj : ∀ x : JSVal, truthy (propT x "question") = true →
    ∃ gs, x = .vObj gs := by
  intro x h
  cases x with
  | vObj gs => exact ⟨gs, rfl⟩
  | vNull => exact absurd h (by decide)
  | vUndefined => exact absurd h (by decide)
  | vBool b => simp only [propT, truthy] at h; exact absurd h (by decide)
  | vNum n => simp only [propT, truthy] at h; exact absurd h (by decide)
  | vStr s =>
    rw [propT_vStr_question] at h
    exact absurd h (by decide)
  | vArr l =>
    rw [propT_vArr_question] at h
    exact absurd h (by decide)

theorem everyValid_mem : ∀ l : List JSVal, everyValid l = .ok true →
    ∀ x ∈ l, isNullish x = false ∧ validQA x = true := by
  intro l
  induction l with
  | nil => intro _ x hx; exact absurd hx (List.not_mem_nil x)
  | cons a rest ih =>
    intro h x hx
    simp only [everyValid] at h
    by_cases h1 : isNullish a = true
    · rw [if_pos h1] at h; exact Except.noConfusion h
    · rw [if_neg h1] at h
      by_cases h2 : validQA a = true
      · rw [if_pos h2] at h
        rcases List.mem_cons.mp hx with rfl | hx2
        · exact ⟨Bool.eq_false_iff.mpr h1, h2⟩
        · exact ih h x hx2
      · rw [if_neg h2] at h
        injection h with h3
        exact absurd h3 (by decide)

theorem everyValid_total : ∀ l : List JSVal, (∀ x ∈ l, isNullish x = false) →
    ∃ b, everyValid l = .ok b := by
  intro l
  induction l with
  | nil => exact fun _ => ⟨true, rfl⟩
  | cons a rest ih =>
    intro h
    have ha : isNullish a = false := h a (List.mem_cons_self a rest)
    simp only [everyValid]
    rw [if_neg (by simp [ha])]
    by_cases hv : validQA a = true
    · rw [if_pos hv]
      exact ih (fun x hx => h x (List.mem_cons_of_mem a hx))
    · rw [if_neg hv]
      exact ⟨false, rfl⟩

/-! ### The claims -/

/-- C1.  The claim says validateFAQData rejects every input whose items
property is an empty array, in particular that validateFAQData with empty
items is false.  The guard of the source only checks that items is a truthy
array, and an empty JavaScript array is truthy, so the every call runs
vacuously and the function returns true: the claim fails on the code (the
repository test suite expects false here, so this is recorded as a code
bug). -/
theorem validateFAQData_acceptsEmptyItems :
    validateFAQData (.vObj [("items", .vArr [])]) = .ok true := rfl

/-- C2.  The claim says only the first contiguous FAQ block is parsed and
items under a later FAQ-labelled heading are never included.  The source
takes the substring from the first FAQ heading to the end of the document
and collects every question/answer match in it, so the pair under the
second FAQ heading, after intervening unrelated prose, appears in the
result. -/
theorem parseFAQFromContent_secondSectionIncluded :
    parseFAQFromContent (.vStr "## FAQ\n### Q: a\nA: b\n\nx\n\n## FAQ 2\n### Q: c\nA: d") =
      some { title := "FAQ",
             items := [{ question := "a", answer := "b" },
                       { question := "c", answer := "d" }] } := rfl

/-- C4.  The claim says markdown links are rewritten to their text in both
the question and the answer.  The source applies stripMarkdownLinks to the
answer only, so a link in the question survives verbatim while the link in
the answer is stripped. -/
theorem parseFAQFromContent_questionLinkKept :
    parseFAQFromContent (.vStr "## FAQ\n### Q: see [a](b)?\nA: go [c](d) now") =
      some { title := "FAQ",
             items := [{ question := "see [a](b)?", answer := "go c now" }] } := rfl

/-- C5.  The claim says every item of a non-null result has a question and
an answer that are individually non-blank after trimming.  On a question
marker followed by whitespace only, the lazy question group of qaRegex can
match the single space before the newline, so the parser emits an item
whose question is empty after cleanup. -/
theorem parseFAQFromContent_blankQuestionEmitted :
    parseFAQFromContent (.vStr "## FAQ\n### Q: \nA: x") =
      some { title := "FAQ", items := [{ question := "", answer := "x" }] } := rfl

/-- C8.  The claim says a question marker with whitespace around the colon
(Q1 space colon) is recognised with the marker excluded from the extracted
question, and that a line with no marker at all is also recognised.  In the
source the optional colon of qaRegex must directly follow the digits, so a
colon after a space is captured as part of the question text; and the
literal Q is mandatory, so a markerless question line yields no match at
all. -/
theorem parseFAQFromContent_markerNotStripped :
    parseFAQFromContent (.vStr "## FAQ\n### Q1 : b?\nA: c") =
      some { title := "FAQ", items := [{ question := ": b?", answer := "c" }] } ∧
    parseFAQFromContent (.vStr "## FAQ\n### b?\nA: c") = none := ⟨rfl, rfl⟩

/-- C6 counterexample.  The claim says validateFAQData returns a boolean
and never throws for every input, including an items array containing null
or undefined elements.  The every callback starts with the access
item.question, which throws a TypeError on a null element, modelled here by
Except.error. -/
theorem validateFAQData_throwsOnNullItem :
    validateFAQData (.vObj [("items", .vArr [.vNull])]) = .error () := rfl

/-- C6 as amended.  For every input whose items array (when items is an
array at all) contains no null or undefined elements, validateFAQData
returns a boolean and never throws; the field check is flat, so extraneous
properties on the items are never read. -/
theorem validateFAQData_booleanOnNonNullishItems :
    ∀ v : JSVal, itemsAllNonNullish v = true → ∃ b, validateFAQData v = .ok b := by
  intro v h
  by_cases ht : truthy v = true
  · rw [validateFAQData, if_neg (fun hc => hc ht)]
    cases hp : propT v "items" with
    | vArr l =>
      have h' : l.all (fun x => !isNullish x) = true := by
        rw [itemsAllNonNullish, hp] at h
        exact h
      apply everyValid_total
      intro x hx
      simpa using List.all_eq_true.mp h' x hx
    | vNull => exact ⟨false, rfl⟩
    | vUndefined => exact ⟨false, rfl⟩
    | vBool b => exact ⟨false, rfl⟩
    | vNum n => exact ⟨false, rfl⟩
    | vStr s => exact ⟨false, rfl⟩
    | vObj gs => exact ⟨false, rfl⟩
  · rw [validateFAQData, if_pos ht]
    exact ⟨false, rfl⟩

/-- C6 witness: the amended statement applied to a concrete object whose
items hold a number (a malformed but non-nullish element). -/
theorem validateFAQData_booleanOnNonNullishItems_witness :
    ∃ b, validateFAQData (.vObj [("items", .vArr [.vNum 3])]) = .ok b :=
  validateFAQData_booleanOnNonNullishItems (.vObj [("items", .vArr [.vNum 3])]) rfl

/-- C3.  For every object whose items satisfy the rules of the Validator
(items a non-empty array, each element with string question and answer,
non-blank after trimming, summarised by validateFAQData returning true),
generateFAQSchema returns a schema whose mainEntity is the order-preserving
image of the items, with the question string passed byte-for-byte into name
and the answer string into acceptedAnswer.text. -/
theorem generateFAQSchema_roundtrip (fs : List (String × JSVal)) (l : List JSVal)
    (hitems : propT (.vObj fs) "items" = .vArr l)
    (hne : l ≠ [])
    (hval : validateFAQData (.vObj fs) = .ok true) :
    ∃ s, generateFAQSchema (.vObj fs) = some s ∧
      s.mainEntity = l.map toSchemaItem ∧
      s.mainEntity.length = l.length ∧
      ∀ x ∈ l, ∃ q a, propT x "question" = .vStr q ∧ propT x "answer" = .vStr a ∧
        toSchemaItem x = { itemType := "Question", name := q,
                           acceptedAnswer := { answerType := "Answer", text := a } } := by
  have hval' : everyValid l = .ok true := by
    rw [validateFAQData, if_neg (fun hc => hc rfl), hitems] at hval
    exact hval
  have hmem := everyValid_mem l hval'
  have hkeep : ∀ x ∈ l, keepItem x = true := by
    intro x hx
    have hv := (hmem x hx).2
    simp only [validQA, Bool.and_eq_true] at hv
    obtain ⟨gs, rfl⟩ := truthy_question_vObj x hv.1.1.1.1.1
    simp only [keepItem, Bool.and_eq_true]
    exact ⟨⟨⟨rfl, rfl⟩, hv.1.1.1.1.1⟩, hv.1.1.1.1.2⟩
  have hfilter : l.filter keepItem = l := List.filter_eq_self.mpr hkeep
  have hlen0 : strictEq0 (propT (.vArr l) "length") = false := by
    rw [propT_vArr_length]
    simp [strictEq0, List.length_eq_zero, hne]
  refine ⟨{ context := "https://schema.org", pageType := "FAQPage",
            mainEntity := l.map toSchemaItem }, ?_, rfl, by simp, ?_⟩
  · rw [generateFAQSchema, hitems]
    rw [if_neg (fun hc => hc rfl), if_neg (fun hc => hc rfl), if_neg (by simp [hlen0])]
    simp only [hfilter]
    rw [if_neg (by simp [hne])]
  · intro x hx
    have hv := (hmem x hx).2
    simp only [validQA, Bool.and_eq_true, beq_iff_eq] at hv
    obtain ⟨q, hq⟩ := jsTypeof_eq_string hv.1.1.1.2
    obtain ⟨a, ha⟩ := jsTypeof_eq_string hv.1.1.2
    exact ⟨q, a, hq, ha, by rw [toSchemaItem, hq, ha]; rfl⟩

/-- C3 witness: the round-trip applied to a concrete one-item object. -/
theorem generateFAQSchema_roundtrip_witness :
    ∃ s, generateFAQSchema (.vObj [("items", .vArr
        [.vObj [("question", .vStr "Q?"), ("answer", .vStr "A.")]])]) = some s ∧
      s.mainEntity = [JSVal.vObj [("question", .vStr "Q?"), ("answer", .vStr "A.")]].map toSchemaItem ∧
      s.mainEntity.length = [JSVal.vObj [("question", .vStr "Q?"), ("answer", .vStr "A.")]].length ∧
      ∀ x ∈ [JSVal.vObj [("question", .vStr "Q?"), ("answer", .vStr "A.")]],
        ∃ q a, propT x "question" = .vStr q ∧ propT x "answer" = .vStr a ∧
          toSchemaItem x = { itemType := "Question", name := q,
                             acceptedAnswer := { answerType := "Answer", text := a } } :=
  generateFAQSchema_roundtrip [("items", .vArr
      [.vObj [("question", .vStr "Q?"), ("answer", .vStr "A.")]])]
    [.vObj [("question", .vStr "Q?"), ("answer", .vStr "A.")]] rfl (by simp) rfl

/-- C7.  generateFAQSchema returns null whenever the input is falsy or its
items property is missing, not an array, or filtered down to nothing; it
never returns a schema with an empty mainEntity; and the three inputs named
by the claim all yield null.  The function is total on every representable
value (the try/catch of the source is the explicit none branch for a
non-array items), so it never throws. -/
theorem generateFAQSchema_nullPolicy :
    (∀ v : JSVal, schemaNullInput v = true → generateFAQSchema v = none) ∧
    (∀ (v : JSVal) (s : FAQPageSchema), generateFAQSchema v = some s → s.mainEntity ≠ []) ∧
    generateFAQSchema .vNull = none ∧
    generateFAQSchema .vUndefined = none ∧
    generateFAQSchema (.vObj [("items", .vArr [])]) = none ∧
    generateFAQSchema (.vObj [("items",
      .vArr [.vObj [("question", .vStr ""), ("answer", .vStr "x")]])]) = none := by
  refine ⟨?_, ?_, rfl, rfl, rfl, rfl⟩
  · intro v h
    by_cases ht : truthy v = true
    · have hM : (match propT v "items" with
          | JSVal.vArr l => (l.filter keepItem).isEmpty
          | _ => true) = true := by
        rw [schemaNullInput] at h
        simpa [ht] using h
      rw [generateFAQSchema, if_neg (fun hc => hc ht)]
      cases hp : propT v "items" with
      | vArr l =>
        rw [hp] at hM
        have hfe : l.filter keepItem = [] := by simpa using hM
        rw [if_neg (fun hc => hc rfl)]
        split_ifs with h3
        · rfl
        · simp only [hfe]
          rfl
      | vNull => split_ifs <;> rfl
      | vUndefined => split_ifs <;> rfl
      | vBool b => split_ifs <;> rfl
      | vNum n => split_ifs <;> rfl
      | vStr s => split_ifs <;> rfl
      | vObj gs => split_ifs <;> rfl
    · rw [generateFAQSchema, if_pos ht]
  · intro v s hs
    rw [generateFAQSchema] at hs
    split_ifs at hs
    cases hp : propT v "items" with
    | vArr l =>
      rw [hp] at hs
      have hs' : (if ((l.filter keepItem).map toSchemaItem).length = 0 then none
          else some { context := "https://schema.org", pageType := "FAQPage",
                      mainEntity := (l.filter keepItem).map toSchemaItem }) = some s := hs
      by_cases h0 : ((l.filter keepItem).map toSchemaItem).length = 0
      · rw [if_pos h0] at hs'
        exact Option.noConfusion hs'
      · rw [if_neg h0] at hs'
        obtain rfl := (Option.some.inj hs').symm
        exact fun he => h0 (by rw [show FAQPageSchema.mainEntity
          { context := "https://schema.org", pageType := "FAQPage",
            mainEntity := (l.filter keepItem).map toSchemaItem } =
            (l.filter keepItem).map toSchemaItem from rfl] at he; rw [he]; rfl)
    | vNull => rw [hp] at hs; exact Option.noConfusion hs
    | vUndefined => rw [hp] at hs; exact Option.noConfusion hs
    | vBool b => rw [hp] at hs; exact Option.noConfusion hs
    | vNum n => rw [hp] at hs; exact Option.noConfusion hs
    | vStr str => rw [hp] at hs; exact Option.noConfusion hs
    | vObj gs => rw [hp] at hs; exact Option.noConfusion hs

/-- C7 witness: the null policy applied at a non-array items property, and
the non-empty mainEntity guarantee applied at a concrete generated
schema. -/
theorem generateFAQSchema_nullPolicy_witness :
    generateFAQSchema (.vObj [("items", .vStr "abc")]) = none ∧
    ([{ itemType := "Question", name := "q",
        acceptedAnswer := { answerType := "Answer", text := "a" } }] :
      List FAQSchemaItem) ≠ [] :=
  ⟨generateFAQSchema_nullPolicy.1 (.vObj [("items", .vStr "abc")]) rfl,
   generateFAQSchema_nullPolicy.2.1
     (.vObj [("items", .vArr [.vObj [("question", .vStr "q"), ("answer", .vStr "a")]])])
     { context := "https://schema.org", pageType := "FAQPage",
       mainEntity := [{ itemType := "Question", name := "q",
                        acceptedAnswer := { answerType := "Answer", text := "a" } }] } rfl⟩

/-- C9.  generateFAQSchemaItems is null exactly when generateFAQSchema is
null, and otherwise returns exactly the mainEntity list of the schema: both
run the identical guard, filter and map. -/
theorem generateFAQSchemaItems_refinesSchema (v : JSVal) :
    generateFAQSchemaItems v = (generateFAQSchema v).map FAQPageSchema.mainEntity := by
  rw [generateFAQSchemaItems, generateFAQSchema]
  by_cases h1 : truthy v = true
  · have hn1 : ¬ ¬ truthy v = true := fun hc => hc h1
    simp only [if_neg hn1]
    by_cases h2 : truthy (propT v "items") = true
    · have hn2 : ¬ ¬ truthy (propT v "items") = true := fun hc => hc h2
      simp only [if_neg hn2]
      by_cases h3 : strictEq0 (propT (propT v "items") "length") = true
      · simp only [if_pos h3]
        rfl
      · simp only [if_neg h3]
        cases hp : propT v "items" with
        | vArr l =>
          show (if 0 < ((l.filter keepItem).map toSchemaItem).length
                then some ((l.filter keepItem).map toSchemaItem) else none) =
            (if ((l.filter keepItem).map toSchemaItem).length = 0 then none
             else some { context := "https://schema.org", pageType := "FAQPage",
                         mainEntity := (l.filter keepItem).map toSchemaItem }).map
              FAQPageSchema.mainEntity
          by_cases h0 : ((l.filter keepItem).map toSchemaItem).length = 0
          · rw [if_pos h0, if_neg (by omega)]
            rfl
          · rw [if_pos (Nat.pos_of_ne_zero h0), if_neg h0]
            rfl
        | vNull => rfl
        | vUndefined => rfl
        | vBool b => rfl
        | vNum n => rfl
        | vStr s => rfl
        | vObj gs => rfl
    · simp only [if_pos (show ¬ truthy (propT v "items") = true from h2)]
      rfl
  · simp only [if_pos (show ¬ truthy v = true from h1)]
    rfl

/-- C10.  Neither validateFAQData nor generateFAQSchema reads the title
field: two objects whose fields agree on every key other than title get the
same validation verdict and the same schema. -/
theorem titleField_notRead (f1 f2 : List (String × JSVal))
    (h : ∀ k, k ≠ "title" → objGet f1 k = objGet f2 k) :
    validateFAQData (.vObj f1) = validateFAQData (.vObj f2) ∧
    generateFAQSchema (.vObj f1) = generateFAQSchema (.vObj f2) := by
  have hi : objGet f1 "items" = objGet f2 "items" := h "items" (by decide)
  have e1 : ∀ fs : List (String × JSVal), validateFAQData (.vObj fs) =
      (match objGet fs "items" with
       | JSVal.vArr items => everyValid items
       | _ => .ok false) := fun fs => by
    rw [validateFAQData, if_neg (fun hc => hc rfl)]
    rfl
  have e2 : ∀ fs : List (String × JSVal), generateFAQSchema (.vObj fs) =
      (if ¬ truthy (objGet fs "items") then none
       else if strictEq0 (propT (objGet fs "items") "length") then none
       else
         match objGet fs "items" with
         | JSVal.vArr items =>
           let mainEntity := (items.filter keepItem).map toSchemaItem
           if mainEntity.length = 0 then none
           else some { context := "https://schema.org", pageType := "FAQPage",
                       mainEntity := mainEntity }
         | _ => none) := fun fs => by
    rw [generateFAQSchema, if_neg (fun hc => hc rfl)]
    rfl
  constructor
  · rw [e1 f1, e1 f2, hi]
  · rw [e2 f1, e2 f2, hi]

/-- C10 witness: the title independence applied to two concrete objects,
one with a title and one without. -/
theorem titleField_notRead_witness :
    validateFAQData (.vObj [("title", .vStr "T"), ("items", .vArr [])]) =
      validateFAQData (.vObj [("items", .vArr [])]) ∧
    generateFAQSchema (.vObj [("title", .vStr "T"), ("items", .vArr [])]) =
      generateFAQSchema (.vObj [("items", .vArr [])]) :=
  titleField_notRead [("title", .vStr "T"), ("items", .vArr [])] [("items", .vArr [])]
    (fun k hk => by
      simp only [objGet]
      rw [if_neg (fun he => hk he.symm)])

end FAQ

